import Mathlib

/-!
Shallow embedding of the fast_c2pa_python wrapper (src/lib.rs,
src/c2pa_reader.rs, src/utils.rs, src/mime_utils.rs) together with
spec-modelled versions of the external c2pa collaborators
(`load_jumbf_from_stream`, `Reader::from_stream`, `save_jumbf_to_stream`)
that the wrapper calls but whose sources are not part of this repository.
-/

deriving instance DecidableEq for Except

namespace FastC2pa

/-- Modelled from the spec: the JUMBF-container state of a byte stream as
seen by the c2pa crate's `load_jumbf_from_stream` (not in src/): the stream
either carries no provenance container (`absent`), carries one whose raw
bytes are `bytes` (`present`), or has box structure that is present but
internally inconsistent (`malformed`). -/
inductive JumbfState where
  | absent : JumbfState
  | present : List Nat → JumbfState
  | malformed : JumbfState
deriving DecidableEq

/-- Modelled from the spec: the error taxonomy of the c2pa collaborators
(§7 of the spec): `jumbfNotFound` for a well-formed stream with no
container, `malformedContainer` for inconsistent box structure,
`incompatibleReembed` when container bytes cannot be hosted by a payload. -/
inductive C2paError where
  | jumbfNotFound : C2paError
  | malformedContainer : C2paError
  | incompatibleReembed : C2paError
deriving DecidableEq

/-- Modelled from the spec: `load_jumbf_from_stream` of the c2pa crate
(not in src/). On a well-formed stream with no container it fails with
a not-found error; on a stream with a container it returns the raw
container bytes; on a malformed container it fails with a decode error
distinct from not-found, never returning partial data. -/
def load_jumbf_from_stream : JumbfState → Except C2paError (List Nat)
  | JumbfState.absent => Except.error C2paError.jumbfNotFound
  | JumbfState.present bytes => Except.ok bytes
  | JumbfState.malformed => Except.error C2paError.malformedContainer

/-- A decoded manifest as the wrapper sees it: `json` is its complete
JSON projection (the output of a successful `serde_json::to_string`),
`serializable` records whether that serialization succeeds. -/
structure Manifest where
  json : String
  serializable : Bool
deriving DecidableEq

/-- Modelled from the spec: the result of the c2pa crate's
`Reader::from_stream` (not in src/) on success, as used by the wrapper:
`activeManifest` is what `reader.active_manifest()` returns, `none` when
the designated active-manifest label does not resolve to a manifest in
the decoded set. -/
structure ReaderView where
  activeManifest : Option Manifest
deriving DecidableEq

/-- Modelled from the spec: everything the collaborators determine from a
concrete `(data, mime_type)` input of `read_c2pa_from_bytes`: the JUMBF
state that `load_jumbf_from_stream` observes, and the outcome of
`Reader::from_stream` (a reader view, or an error rendered as a string
by the wrapper's `format!`). -/
structure ByteInput where
  jumbf : JumbfState
  reader : Except String ReaderView
deriving DecidableEq

/-- Embeds `serde_json::to_string(&manifest)` as used in src/lib.rs:
serialization either yields the manifest's complete JSON projection or
fails. -/
def serde_json_to_string (m : Manifest) : Except Unit String :=
  if m.serializable then Except.ok m.json else Except.error ()

/-- Embeds `read_c2pa_from_bytes` of src/lib.rs lines 83-126: probe via
`load_jumbf_from_stream(...).is_ok()`, return `None` when the probe
fails, otherwise run `Reader::from_stream` (inside or outside
`allow_threads`), project the active manifest with
`serde_json::to_string` falling back to the empty object on
serialization failure, return `None` when there is no active manifest,
and raise a runtime error when the reader fails. The result type mirrors
the Rust `PyResult<Option<PyObject>>`: `Except.error` is a raised
`RuntimeError`, `Except.ok none` is Python `None`, `Except.ok (some s)`
is the manifest JSON handed to `json.loads`. -/
def read_c2pa_from_bytes (input : ByteInput) (allow_threads : Bool) :
    Except String (Option String) :=
  let has_jumbf : Bool :=
    match load_jumbf_from_stream input.jumbf with
    | Except.ok _ => true
    | Except.error _ => false
  if !has_jumbf then
    Except.ok none
  else
    let reader : Except String ReaderView :=
      if allow_threads then input.reader else input.reader
    match reader with
    | Except.ok r =>
      match r.activeManifest with
      | some m =>
        let json_str : String :=
          match serde_json_to_string m with
          | Except.ok s => s
          | Except.error _ => "\x7b\x7d"
        Except.ok (some json_str)
      | none => Except.ok none
    | Except.error e => Except.error ("Error reading C2PA data: " ++ e)

/-- Embeds `read_c2pa_from_bytes` of src/c2pa_reader.rs lines 27-77: the
same body as the src/lib.rs version, with the extra `verify_trust`
parameter of the signature. The parameter is bound but never read in the
Rust body, which the embedding reproduces. -/
def c2pa_reader_read_c2pa_from_bytes (input : ByteInput) (allow_threads : Bool)
    (verify_trust : Option Bool) : Except String (Option String) :=
  let _ := verify_trust
  let has_jumbf : Bool :=
    match load_jumbf_from_stream input.jumbf with
    | Except.ok _ => true
    | Except.error _ => false
  if !has_jumbf then
    Except.ok none
  else
    let reader : Except String ReaderView :=
      if allow_threads then input.reader else input.reader
    match reader with
    | Except.ok r =>
      match r.activeManifest with
      | some m =>
        let json_str : String :=
          match serde_json_to_string m with
          | Except.ok s => s
          | Except.error _ => "\x7b\x7d"
        Except.ok (some json_str)
      | none => Except.ok none
    | Except.error e => Except.error ("Error reading C2PA data: " ++ e)

/-- Execution trace of one `read_c2pa_from_bytes` call: the returned
value, the value of the `has_jumbf` probe, and whether
`Reader::from_stream` was invoked. -/
structure ReadTrace where
  result : Except String (Option String)
  has_jumbf : Bool
  reader_invoked : Bool
deriving DecidableEq

/-- Instrumented form of `read_c2pa_from_bytes` (src/lib.rs lines
83-126) recording, next to the result, the probe outcome and whether the
`Reader::from_stream` collaborator was reached. -/
def read_c2pa_from_bytes_traced (input : ByteInput) (allow_threads : Bool) :
    ReadTrace :=
  let has_jumbf : Bool :=
    match load_jumbf_from_stream input.jumbf with
    | Except.ok _ => true
    | Except.error _ => false
  if !has_jumbf then
    { result := Except.ok none, has_jumbf := false, reader_invoked := false }
  else
    let reader : Except String ReaderView :=
      if allow_threads then input.reader else input.reader
    match reader with
    | Except.ok r =>
      match r.activeManifest with
      | some m =>
        let json_str : String :=
          match serde_json_to_string m with
          | Except.ok s => s
          | Except.error _ => "\x7b\x7d"
        { result := Except.ok (some json_str), has_jumbf := true,
          reader_invoked := true }
      | none =>
        { result := Except.ok none, has_jumbf := true, reader_invoked := true }
    | Except.error e =>
      { result := Except.error ("Error reading C2PA data: " ++ e),
        has_jumbf := true, reader_invoked := true }

/-- Modelled from the spec: a media file's contents as the collaborators
see them. `pixels` is the media payload, `jumbf` the container state of
the stream, `decodable` whether `image::open` can decode the payload,
`embeddable` whether the stream is a well-formed instance of the target
format able to host container bytes (the precondition of the spec's
re-embedder, §4.4). The pixel transformation itself is excluded from the
core by the spec (§1). -/
structure Media where
  pixels : List Nat
  jumbf : JumbfState
  decodable : Bool
  embeddable : Bool
deriving DecidableEq

/-- Modelled from the spec: `save_jumbf_to_stream` of the c2pa crate
(not in src/), the spec's re-embedder (§4.4): writes the payload stream
unmodified with the supplied container bytes inserted at the correct
structural location; fails when the payload cannot structurally host the
container bytes. -/
def save_jumbf_to_stream (payload : Media) (jumbf : List Nat) :
    Except C2paError Media :=
  if payload.embeddable then
    Except.ok { payload with jumbf := JumbfState.present jumbf }
  else
    Except.error C2paError.incompatibleReembed

/-- Modelled from the spec: the external grayscale transformation of
src/utils.rs (`image::open(...).grayscale()` then `save`), excluded from
the core by the spec (§1): it produces a new payload of the same format
carrying no provenance container of its own. -/
def grayscale (m : Media) : Media :=
  { pixels := m.pixels, jumbf := JumbfState.absent, decodable := true,
    embeddable := m.embeddable }

/-- The zero-length file that `File::create` leaves at a path before any
bytes have been written to it. -/
def emptyFile : Media :=
  { pixels := [], jumbf := JumbfState.absent, decodable := false,
    embeddable := false }

/-- A file system: an association of paths to media files. -/
abbrev FS : Type := List (String × Media)

/-- The file stored at path `p`, if any. -/
def FS.read (fs : FS) (p : String) : Option Media :=
  match fs with
  | [] => none
  | (q, m) :: rest => if q = p then some m else FS.read rest p

/-- Writing file `m` at path `p` (creates or overwrites). -/
def FS.write (fs : FS) (p : String) (m : Media) : FS :=
  (p, m) :: List.filter (fun e => decide (e.1 ≠ p)) fs

/-- Modelled from the spec: the outcomes of the remaining external
collaborators during one `convert_to_gray_keep_c2pa` run.
`img_save_ok` is whether the image crate's `output_img.save(output_path)`
succeeds (it fails, e.g., on an extension it cannot encode);
`fs_read_err` and `file_create_err` are the `io::Error` messages, when
any, with which the intermediate `std::fs::read(output_path)?` and
`File::create(output_path)?` calls fail and propagate. -/
structure ConvertEnv where
  img_save_ok : Bool
  fs_read_err : Option String
  file_create_err : Option String
deriving DecidableEq

/-- Embeds `convert_to_gray_keep_c2pa` of src/utils.rs lines 8-41 as a
state transformer over the file system: (1) open the input and extract
its JUMBF via `load_jumbf_from_stream`, failing before any write when
either step fails; (2) decode the input with `image::open`, convert to
grayscale and save the result at `output_path` (a save failure is
mapped to its own error); (3) read the bytes just written back and
truncate the output file with `File::create` — either call propagates
an io failure via `?` — then rewrite the file through
`save_jumbf_to_stream` with the extracted JUMBF. Each mapped failure
carries the corresponding `PyRuntimeError` message of the source.
Returns the outcome and the resulting file system. -/
def convert_to_gray_keep_c2pa (env : ConvertEnv) (fs : FS)
    (input_path output_path : String) : Except String Unit × FS :=
  match FS.read fs input_path with
  | none => (Except.error "Failed to open file", fs)
  | some source =>
    match load_jumbf_from_stream source.jumbf with
    | Except.error _ => (Except.error "Failed to load JUMBF", fs)
    | Except.ok jumbf =>
      if !source.decodable then
        (Except.error "Failed to open input path", fs)
      else
        let output_img := grayscale source
        if !env.img_save_ok then
          (Except.error "Failed to save output file", fs)
        else
          let fs1 := FS.write fs output_path output_img
          match env.fs_read_err with
          | some e => (Except.error e, fs1)
          | none =>
            let image := output_img
            match env.file_create_err with
            | some e => (Except.error e, fs1)
            | none =>
              let fs2 := FS.write fs1 output_path emptyFile
              match save_jumbf_to_stream image jumbf with
              | Except.error _ =>
                (Except.error "Failed to save output with jumbf", fs2)
              | Except.ok out => (Except.ok (), FS.write fs2 output_path out)

/-- The characters of a string with leading and trailing whitespace
removed: an executable model of Rust's `str::trim`. -/
def trimChars (cs : List Char) : List Char :=
  ((cs.dropWhile Char.isWhitespace).reverse.dropWhile Char.isWhitespace).reverse

/-- The characters after the last path separator: the basename of a
path. -/
def basenameChars (cs : List Char) : List Char :=
  (cs.reverse.takeWhile (fun c => c ≠ '/')).reverse

/-- The string lowercased character by character: an executable model of
Rust's `str::to_lowercase` on ASCII extensions. -/
def lowerString (s : String) : String :=
  String.mk (s.toList.map Char.toLower)

/-- The extension suffix of a character list: the suffix starting at the
last dot, if any. Helper for the `os.path.splitext` model. -/
def extOfChars : List Char → Option (List Char)
  | [] => none
  | c :: cs =>
    match extOfChars cs with
    | some e => some e
    | none => if c = '.' then some (c :: cs) else none

/-- Modelled from the spec: the extension part of Python's
`os.path.splitext` (an external collaborator of src/mime_utils.rs): the
basename's suffix from its last dot, where leading dots of the basename
do not start an extension. -/
def splitext_ext (p : String) : String :=
  let base := basenameChars p.toList
  let lead := (base.takeWhile (fun c => c = '.')).length
  match extOfChars (base.drop lead) with
  | some e => String.mk e
  | none => ""

/-- Embeds the fallback `match` of src/mime_utils.rs lines 35-44: the
extension-to-type table applied when the standard table yields none. -/
def ext_fallback (ext : String) : Option String :=
  if ext = ".jpg" ∨ ext = ".jpeg" then some "image/jpeg"
  else if ext = ".png" then some "image/png"
  else if ext = ".gif" then some "image/gif"
  else if ext = ".webp" then some "image/webp"
  else if ext = ".tiff" then some "image/tiff"
  else if ext = ".heic" then some "image/heic"
  else none

/-- Embeds `get_mime_type` of src/mime_utils.rs lines 14-48,
parameterized by the external standard table (`mimetypes.guess_type`,
passed as `guess_type`): use the standard table's answer when it has
one; otherwise lowercase the file extension and consult the image-type
fallback table; otherwise report no type. -/
def get_mime_type (guess_type : String → Option String)
    (file_path : String) : Option String :=
  match guess_type file_path with
  | some mime => some mime
  | none =>
    let ext := lowerString (splitext_ext file_path)
    match ext_fallback ext with
    | some mime => some mime
    | none => none

/-- Embeds `read_c2pa_from_file` of src/lib.rs lines 144-168: when
`mime_type` is supplied and not blank it is used as is; otherwise the
type is derived by `get_mime_type`, and if that yields none the call
fails with the could-not-determine error. Then the file is read
(`file_data` maps each candidate MIME type to the collaborators' view of
the file's bytes under that type; `none` models an `fs::read` failure)
and handed to `read_c2pa_from_bytes`. -/
def read_c2pa_from_file (guess_type : String → Option String)
    (file_path : String) (mime_type : Option String)
    (file_data : Option (String → ByteInput)) (allow_threads : Bool) :
    Except String (Option String) :=
  let effective_mime_type : Except String String :=
    match mime_type with
    | some mime =>
      if trimChars mime.toList ≠ [] then Except.ok mime
      else
        match get_mime_type guess_type file_path with
        | some derived => Except.ok derived
        | none =>
          Except.error ("Could not determine MIME type for file: " ++ file_path)
    | none =>
      match get_mime_type guess_type file_path with
      | some derived => Except.ok derived
      | none =>
        Except.error ("Could not determine MIME type for file: " ++ file_path)
  match effective_mime_type with
  | Except.error e => Except.error e
  | Except.ok mime =>
    match file_data with
    | some data => read_c2pa_from_bytes (data mime) allow_threads
    | none => Except.error "Error reading file"

/-! ## Theorems -/

/-- C1 counterexample: on a stream whose declared format is recognized
but whose provenance container is malformed, `read_c2pa_from_bytes`
returns the absent result `None` instead of surfacing a
MalformedContainer-style error. -/
theorem read_malformed_returns_none_cex :
    read_c2pa_from_bytes
      { jumbf := JumbfState.malformed,
        reader := Except.ok { activeManifest := none } } true =
      Except.ok none := by
  rfl

/-- C1 (amended): when the probe `load_jumbf_from_stream` fails on the
data — including when the container is malformed — `read_c2pa_from_bytes`
returns `None`, downgrading MalformedContainer to absence; an error is
surfaced only when the probe succeeds and `Reader::from_stream` then
fails. -/
theorem read_malformed_downgraded_to_none (input : ByteInput)
    (allow_threads : Bool) :
    (input.jumbf = JumbfState.malformed →
      read_c2pa_from_bytes input allow_threads = Except.ok none) ∧
    (∀ b e, input.jumbf = JumbfState.present b →
      input.reader = Except.error e →
      read_c2pa_from_bytes input allow_threads =
        Except.error ("Error reading C2PA data: " ++ e)) := by
  constructor
  · intro h
    simp [read_c2pa_from_bytes, load_jumbf_from_stream, h]
  · intro b e hj hr
    simp [read_c2pa_from_bytes, load_jumbf_from_stream, hj, hr]

/-- Witness for C1's amended theorem at concrete inputs. -/
theorem read_malformed_downgraded_to_none_witness :
    read_c2pa_from_bytes
      { jumbf := JumbfState.malformed,
        reader := Except.error "boxes truncated" } false = Except.ok none ∧
    read_c2pa_from_bytes
      { jumbf := JumbfState.present [1, 2],
        reader := Except.error "bad claim" } true =
      Except.error ("Error reading C2PA data: " ++ "bad claim") :=
  ⟨(read_malformed_downgraded_to_none _ false).1 rfl,
   (read_malformed_downgraded_to_none _ true).2 [1, 2] "bad claim" rfl rfl⟩

/-- C2 counterexample: with a container present and a decodable manifest,
the result of the c2pa_reader variant with `verify_trust = some false` is
byte-for-byte the result with `verify_trust = some true` — the bare
manifest projection, carrying no trust verdict at all — so the behaviour
does not differ by a skipped-verification verdict. -/
theorem verify_trust_no_effect_cex :
    c2pa_reader_read_c2pa_from_bytes
      { jumbf := JumbfState.present [0],
        reader := Except.ok
          { activeManifest := some { json := "manifest-a", serializable := true } } }
      true (some false) =
    c2pa_reader_read_c2pa_from_bytes
      { jumbf := JumbfState.present [0],
        reader := Except.ok
          { activeManifest := some { json := "manifest-a", serializable := true } } }
      true (some true) ∧
    c2pa_reader_read_c2pa_from_bytes
      { jumbf := JumbfState.present [0],
        reader := Except.ok
          { activeManifest := some { json := "manifest-a", serializable := true } } }
      true (some false) = Except.ok (some "manifest-a") := by
  exact ⟨rfl, rfl⟩

/-- C2 (amended): the `verify_trust` parameter of
`c2pa_reader_read_c2pa_from_bytes` is accepted but never consulted: the
result is identical for every value of `verify_trust` (including `none`)
and coincides with the version that has no such parameter, so no
verification work or verdict is toggled by it. -/
theorem verify_trust_ignored (input : ByteInput) (allow_threads : Bool)
    (v w : Option Bool) :
    c2pa_reader_read_c2pa_from_bytes input allow_threads v =
      c2pa_reader_read_c2pa_from_bytes input allow_threads w ∧
    c2pa_reader_read_c2pa_from_bytes input allow_threads v =
      read_c2pa_from_bytes input allow_threads := by
  exact ⟨rfl, rfl⟩

/-- C3 counterexample: container present and decoded, but the active
manifest does not resolve — `read_c2pa_from_bytes` returns the absent
result `None` rather than a structural error. -/
theorem unresolved_active_manifest_cex :
    read_c2pa_from_bytes
      { jumbf := JumbfState.present [2],
        reader := Except.ok { activeManifest := none } } true =
      Except.ok none := by
  rfl

/-- C3 (amended): when the container is present and `Reader::from_stream`
succeeds but the designated active manifest does not resolve,
`read_c2pa_from_bytes` returns `None` — the same result as a stream with
no container — rather than a distinct structural error. -/
theorem unresolved_active_manifest_is_none (input : ByteInput)
    (allow_threads : Bool) (b : List Nat) (r : ReaderView)
    (hj : input.jumbf = JumbfState.present b)
    (hr : input.reader = Except.ok r) (ha : r.activeManifest = none) :
    read_c2pa_from_bytes input allow_threads = Except.ok none := by
  simp [read_c2pa_from_bytes, load_jumbf_from_stream, hj, hr, ha]

/-- Witness for C3's amended theorem at a concrete input. -/
theorem unresolved_active_manifest_is_none_witness :
    read_c2pa_from_bytes
      { jumbf := JumbfState.present [9],
        reader := Except.ok { activeManifest := none } } false =
      Except.ok none :=
  unresolved_active_manifest_is_none _ false [9] { activeManifest := none }
    rfl rfl rfl

/-- C6: on a well-formed input containing no provenance container the
probe reports absence, `Reader::from_stream` is never invoked, and
`read_c2pa_from_bytes` returns `None` rather than an error. -/
theorem absence_short_circuits (input : ByteInput) (allow_threads : Bool)
    (h : input.jumbf = JumbfState.absent) :
    read_c2pa_from_bytes_traced input allow_threads =
      { result := Except.ok none, has_jumbf := false,
        reader_invoked := false } := by
  simp [read_c2pa_from_bytes_traced, load_jumbf_from_stream, h]

/-- Witness for C6 at a concrete input. -/
theorem absence_short_circuits_witness :
    read_c2pa_from_bytes_traced
      { jumbf := JumbfState.absent,
        reader := Except.ok { activeManifest := none } } true =
      { result := Except.ok none, has_jumbf := false,
        reader_invoked := false } :=
  absence_short_circuits _ true rfl

/-- C7 counterexample: when JSON serialization of the active manifest
fails, `read_c2pa_from_bytes` does not abort: it returns the empty
object as a substitute for the manifest's complete projection. -/
theorem empty_substitute_on_serialization_failure_cex :
    read_c2pa_from_bytes
      { jumbf := JumbfState.present [3],
        reader := Except.ok
          { activeManifest :=
              some { json := "complete-projection", serializable := false } } }
      true = Except.ok (some "\x7b\x7d") ∧
    ("complete-projection" : String) ≠ "\x7b\x7d" := by
  exact ⟨rfl, by decide⟩

/-- C7 (amended): when `Reader::from_stream` fails the whole read aborts
with an error, and when serialization of the active manifest succeeds
the returned mapping is its complete projection; but when serialization
fails the read substitutes the empty object instead of aborting. -/
theorem no_partial_manifest_except_empty_substitute (input : ByteInput)
    (allow_threads : Bool) (b : List Nat)
    (hj : input.jumbf = JumbfState.present b) :
    (∀ e, input.reader = Except.error e →
      read_c2pa_from_bytes input allow_threads =
        Except.error ("Error reading C2PA data: " ++ e)) ∧
    (∀ r m, input.reader = Except.ok r → r.activeManifest = some m →
      m.serializable = true →
      read_c2pa_from_bytes input allow_threads = Except.ok (some m.json)) ∧
    (∀ r m, input.reader = Except.ok r → r.activeManifest = some m →
      m.serializable = false →
      read_c2pa_from_bytes input allow_threads =
        Except.ok (some "\x7b\x7d")) := by
  refine ⟨?_, ?_, ?_⟩
  · intro e hr
    simp [read_c2pa_from_bytes, load_jumbf_from_stream, hj, hr]
  · intro r m hr ha hs
    simp [read_c2pa_from_bytes, load_jumbf_from_stream,
      serde_json_to_string, hj, hr, ha, hs]
  · intro r m hr ha hs
    simp [read_c2pa_from_bytes, load_jumbf_from_stream,
      serde_json_to_string, hj, hr, ha, hs]

/-- Witness for C7's amended theorem at concrete inputs. -/
theorem no_partial_manifest_except_empty_substitute_witness :
    read_c2pa_from_bytes
      { jumbf := JumbfState.present [4],
        reader := Except.error "missing data box" } true =
      Except.error ("Error reading C2PA data: " ++ "missing data box") ∧
    read_c2pa_from_bytes
      { jumbf := JumbfState.present [4],
        reader := Except.ok
          { activeManifest := some { json := "full-manifest", serializable := true } } }
      true = Except.ok (some "full-manifest") :=
  ⟨(no_partial_manifest_except_empty_substitute _ true [4] rfl).1
      "missing data box" rfl,
   (no_partial_manifest_except_empty_substitute _ true [4] rfl).2.1
      { activeManifest := some { json := "full-manifest", serializable := true } }
      { json := "full-manifest", serializable := true } rfl rfl rfl⟩

/-- C9: `read_c2pa_from_bytes` computes the same result whether
`allow_threads` is true or false: the two branches are the same function
of the input. -/
theorem allow_threads_equivalent (input : ByteInput) (a b : Bool) :
    read_c2pa_from_bytes input a = read_c2pa_from_bytes input b := by
  cases a <;> cases b <;> rfl

/-- Reading back a path just written yields the file written there. -/
theorem FS.read_write (fs : FS) (p : String) (m : Media) :
    FS.read (FS.write fs p m) p = some m := by
  simp [FS.read, FS.write]

/-- C5: round-trip law — for every stream that contains a provenance
container (and is a well-formed instance of its format, the re-embedder's
precondition), extracting the container bytes with
`load_jumbf_from_stream` and re-embedding them with
`save_jumbf_to_stream` into an unmodified copy of the original payload
reproduces the original stream exactly. -/
theorem extract_reembed_roundtrip (s : Media) (b : List Nat)
    (hc : s.jumbf = JumbfState.present b) (hw : s.embeddable = true) :
    load_jumbf_from_stream s.jumbf = Except.ok b ∧
    save_jumbf_to_stream s b = Except.ok s := by
  constructor
  · rw [hc]
    rfl
  · cases s
    simp_all [save_jumbf_to_stream]

/-- Witness for C5 at a concrete stream. -/
theorem extract_reembed_roundtrip_witness :
    load_jumbf_from_stream
      (Media.jumbf
        { pixels := [10, 11], jumbf := JumbfState.present [5, 6],
          decodable := true, embeddable := true }) = Except.ok [5, 6] ∧
    save_jumbf_to_stream
      { pixels := [10, 11], jumbf := JumbfState.present [5, 6],
        decodable := true, embeddable := true } [5, 6] =
      Except.ok
        { pixels := [10, 11], jumbf := JumbfState.present [5, 6],
          decodable := true, embeddable := true } :=
  extract_reembed_roundtrip
    { pixels := [10, 11], jumbf := JumbfState.present [5, 6],
      decodable := true, embeddable := true } [5, 6] rfl rfl

/-- C10: when the input file's contents do not yield a loadable
provenance container (`load_jumbf_from_stream` fails),
`convert_to_gray_keep_c2pa` returns an error before performing any
write: the file system — in particular the file at `output_path` — is
left exactly as it was. -/
theorem convert_no_write_on_load_failure (env : ConvertEnv) (fs : FS)
    (input_path output_path : String) (source : Media) (e : C2paError)
    (hr : FS.read fs input_path = some source)
    (hl : load_jumbf_from_stream source.jumbf = Except.error e) :
    convert_to_gray_keep_c2pa env fs input_path output_path =
      (Except.error "Failed to load JUMBF", fs) := by
  simp [convert_to_gray_keep_c2pa, hr, hl]

/-- Witness for C10 at a concrete file system. -/
theorem convert_no_write_on_load_failure_witness :
    convert_to_gray_keep_c2pa
      { img_save_ok := true, fs_read_err := none, file_create_err := none }
      [("photo.jpg",
        { pixels := [1], jumbf := JumbfState.absent, decodable := true,
          embeddable := true })] "photo.jpg" "gray.jpg" =
      (Except.error "Failed to load JUMBF",
       [("photo.jpg",
         { pixels := [1], jumbf := JumbfState.absent, decodable := true,
           embeddable := true })]) :=
  convert_no_write_on_load_failure
    { img_save_ok := true, fs_read_err := none, file_create_err := none }
    _ "photo.jpg" "gray.jpg"
    { pixels := [1], jumbf := JumbfState.absent, decodable := true,
      embeddable := true } C2paError.jumbfNotFound rfl rfl

/-- C4 counterexample: a run of `convert_to_gray_keep_c2pa` in which
re-embedding fails after the output file has been created: the call
reports an error, yet a zero-length, container-less file is left at the
output path — a corrupted output file. -/
theorem convert_leaves_truncated_file_cex :
    (convert_to_gray_keep_c2pa
      { img_save_ok := true, fs_read_err := none, file_create_err := none }
      [("in.jpg",
        { pixels := [7, 8], jumbf := JumbfState.present [42],
          decodable := true, embeddable := false })] "in.jpg" "out.jpg").1 =
      Except.error "Failed to save output with jumbf" ∧
    FS.read
      (convert_to_gray_keep_c2pa
        { img_save_ok := true, fs_read_err := none, file_create_err := none }
        [("in.jpg",
          { pixels := [7, 8], jumbf := JumbfState.present [42],
            decodable := true, embeddable := false })] "in.jpg" "out.jpg").2
      "out.jpg" = some emptyFile ∧
    emptyFile.pixels = [] ∧ emptyFile.jumbf = JumbfState.absent := by
  refine ⟨rfl, ?_, rfl, rfl⟩
  rfl

/-- C4 (amended): `convert_to_gray_keep_c2pa` either completes
successfully — in which case the output file holds the grayscale payload
with the container bytes extracted from the input re-embedded — or fails
with a specific reason: one of the five mapped error messages of the
source, or the propagated io error of the intermediate `fs::read` /
`File::create` calls; however, a failure of the re-embedding step occurs
after `File::create` has already truncated the output file, so a failure
may leave a truncated file at the output path. -/
theorem convert_success_clean_or_specific_error (env : ConvertEnv) (fs : FS)
    (input_path output_path : String) :
    (∀ fs', convert_to_gray_keep_c2pa env fs input_path output_path =
        (Except.ok (), fs') →
      ∃ source jumbf, FS.read fs input_path = some source ∧
        load_jumbf_from_stream source.jumbf = Except.ok jumbf ∧
        FS.read fs' output_path =
          some { grayscale source with jumbf := JumbfState.present jumbf }) ∧
    (∀ msg fs', convert_to_gray_keep_c2pa env fs input_path output_path =
        (Except.error msg, fs') →
      msg = "Failed to open file" ∨ msg = "Failed to load JUMBF" ∨
      msg = "Failed to open input path" ∨
      msg = "Failed to save output file" ∨
      msg = "Failed to save output with jumbf" ∨
      env.fs_read_err = some msg ∨ env.file_create_err = some msg) := by
  refine ⟨?_, ?_⟩
  · intro fs' h
    unfold convert_to_gray_keep_c2pa at h
    cases hread : FS.read fs input_path with
    | none => simp [hread] at h
    | some source =>
      simp only [hread] at h
      cases hload : load_jumbf_from_stream source.jumbf with
      | error e => simp [hload] at h
      | ok jumbf =>
        simp only [hload] at h
        cases hdec : source.decodable with
        | false => simp [hdec] at h
        | true =>
          simp only [hdec] at h
          cases himg : env.img_save_ok with
          | false => simp [himg] at h
          | true =>
            simp only [himg] at h
            cases hfsread : env.fs_read_err with
            | some e => simp [hfsread] at h
            | none =>
              simp only [hfsread] at h
              cases hcreate : env.file_create_err with
              | some e => simp [hcreate] at h
              | none =>
                simp only [hcreate] at h
                cases hsave : save_jumbf_to_stream (grayscale source) jumbf with
                | error e => simp [hsave] at h
                | ok out =>
                  simp [hsave] at h
                  have hout :
                      out = { grayscale source with
                                jumbf := JumbfState.present jumbf } := by
                    unfold save_jumbf_to_stream at hsave
                    split at hsave
                    · exact (Except.ok.inj hsave).symm
                    · cases hsave
                  exact ⟨source, jumbf, rfl, hload,
                    by rw [← h, FS.read_write, hout]⟩
  · intro msg fs' h
    unfold convert_to_gray_keep_c2pa at h
    cases hread : FS.read fs input_path with
    | none =>
      simp [hread] at h
      exact Or.inl h.1.symm
    | some source =>
      simp only [hread] at h
      cases hload : load_jumbf_from_stream source.jumbf with
      | error e =>
        simp [hload] at h
        exact Or.inr (Or.inl h.1.symm)
      | ok jumbf =>
        simp only [hload] at h
        cases hdec : source.decodable with
        | false =>
          simp [hdec] at h
          exact Or.inr (Or.inr (Or.inl h.1.symm))
        | true =>
          simp only [hdec] at h
          cases himg : env.img_save_ok with
          | false =>
            simp [himg] at h
            exact Or.inr (Or.inr (Or.inr (Or.inl h.1.symm)))
          | true =>
            simp only [himg] at h
            cases hfsread : env.fs_read_err with
            | some e =>
              simp [hfsread] at h
              exact Or.inr (Or.inr (Or.inr (Or.inr (Or.inr (Or.inl
                (by rw [h.1]))))))
            | none =>
              simp only [hfsread] at h
              cases hcreate : env.file_create_err with
              | some e =>
                simp [hcreate] at h
                exact Or.inr (Or.inr (Or.inr (Or.inr (Or.inr (Or.inr
                  (by rw [h.1]))))))
              | none =>
                simp only [hcreate] at h
                cases hsave : save_jumbf_to_stream (grayscale source) jumbf with
                | error e =>
                  simp [hsave] at h
                  exact Or.inr (Or.inr (Or.inr (Or.inr (Or.inl h.1.symm))))
                | ok out => simp [hsave] at h

/-- Witness for C4's amended theorem at concrete inputs: a successful run
whose output file carries the re-embedded container, and a failing run
reporting one of the specific reasons. -/
theorem convert_success_clean_or_specific_error_witness :
    (∃ source jumbf,
      FS.read
        [("in.jpg",
          { pixels := [5], jumbf := JumbfState.present [42],
            decodable := true, embeddable := true })] "in.jpg" = some source ∧
      load_jumbf_from_stream source.jumbf = Except.ok jumbf ∧
      FS.read
        (convert_to_gray_keep_c2pa
          { img_save_ok := true, fs_read_err := none, file_create_err := none }
          [("in.jpg",
            { pixels := [5], jumbf := JumbfState.present [42],
              decodable := true, embeddable := true })] "in.jpg" "out.jpg").2
        "out.jpg" =
        some { grayscale source with jumbf := JumbfState.present jumbf }) ∧
    ("Failed to open file" = "Failed to open file" ∨
     "Failed to open file" = "Failed to load JUMBF" ∨
     "Failed to open file" = "Failed to open input path" ∨
     "Failed to open file" = "Failed to save output file" ∨
     "Failed to open file" = "Failed to save output with jumbf" ∨
     ConvertEnv.fs_read_err
       { img_save_ok := true, fs_read_err := none, file_create_err := none } =
       some "Failed to open file" ∨
     ConvertEnv.file_create_err
       { img_save_ok := true, fs_read_err := none, file_create_err := none } =
       some "Failed to open file") :=
  ⟨(convert_success_clean_or_specific_error
      { img_save_ok := true, fs_read_err := none, file_create_err := none }
      [("in.jpg",
        { pixels := [5], jumbf := JumbfState.present [42],
          decodable := true, embeddable := true })] "in.jpg" "out.jpg").1
      (convert_to_gray_keep_c2pa
        { img_save_ok := true, fs_read_err := none, file_create_err := none }
        [("in.jpg",
          { pixels := [5], jumbf := JumbfState.present [42],
            decodable := true, embeddable := true })] "in.jpg" "out.jpg").2
      rfl,
   (convert_success_clean_or_specific_error
      { img_save_ok := true, fs_read_err := none, file_create_err := none }
      [] "a" "b").2
      "Failed to open file" [] rfl⟩

/-- C8: when the MIME type is not supplied (`none`, or blank after
trimming), `read_c2pa_from_file` derives it via `get_mime_type` and
proceeds with the derived type; if no type can be determined it fails
with the could-not-determine error; and when the standard table yields
none, `get_mime_type` falls back on the lowercased extension through the
image-type table, which maps .jpg/.jpeg/.png/.gif/.webp/.tiff/.heic to
the corresponding image/* types. -/
theorem mime_resolution_in_read_from_file
    (guess_type : String → Option String) (file_path : String)
    (mime_type : Option String) (file_data : Option (String → ByteInput))
    (allow_threads : Bool) :
    ((mime_type = none ∨ ∃ m, mime_type = some m ∧ trimChars m.data = []) →
      get_mime_type guess_type file_path = none →
      read_c2pa_from_file guess_type file_path mime_type file_data
          allow_threads =
        Except.error ("Could not determine MIME type for file: " ++ file_path)) ∧
    ((mime_type = none ∨ ∃ m, mime_type = some m ∧ trimChars m.data = []) →
      ∀ derived data, get_mime_type guess_type file_path = some derived →
        file_data = some data →
        read_c2pa_from_file guess_type file_path mime_type file_data
            allow_threads =
          read_c2pa_from_bytes (data derived) allow_threads) ∧
    (guess_type file_path = none →
      ∀ mime, ext_fallback (lowerString (splitext_ext file_path)) = some mime →
        get_mime_type guess_type file_path = some mime) ∧
    ext_fallback ".jpg" = some "image/jpeg" ∧
    ext_fallback ".jpeg" = some "image/jpeg" ∧
    ext_fallback ".png" = some "image/png" ∧
    ext_fallback ".gif" = some "image/gif" ∧
    ext_fallback ".webp" = some "image/webp" ∧
    ext_fallback ".tiff" = some "image/tiff" ∧
    ext_fallback ".heic" = some "image/heic" := by
  refine ⟨?_, ?_, ?_, by decide, by decide, by decide, by decide, by decide,
    by decide, by decide⟩
  · rintro (hm | ⟨m, hm, ht⟩) hg
    · subst hm
      simp [read_c2pa_from_file, hg]
    · subst hm
      simp [read_c2pa_from_file, ht, hg]
  · rintro (hm | ⟨m, hm, ht⟩) derived data hg hd
    · subst hm
      subst hd
      simp [read_c2pa_from_file, hg]
    · subst hm
      subst hd
      simp [read_c2pa_from_file, ht, hg]
  · intro hg mime hf
    simp [get_mime_type, hg, hf]

/-- Witness for C8 at concrete inputs: an undeterminable type fails, a
blank supplied type is derived from the uppercase .JPG extension through
the fallback, and the fallback itself. -/
theorem mime_resolution_in_read_from_file_witness :
    read_c2pa_from_file (fun _ => none) "file.bin" none none true =
      Except.error ("Could not determine MIME type for file: " ++ "file.bin") ∧
    read_c2pa_from_file (fun _ => none) "photo.JPG" (some "  ")
        (some fun _ =>
          { jumbf := JumbfState.absent,
            reader := Except.ok { activeManifest := none } }) true =
      read_c2pa_from_bytes
        ((fun _ =>
          ({ jumbf := JumbfState.absent,
             reader := Except.ok { activeManifest := none } } : ByteInput))
          "image/jpeg") true ∧
    get_mime_type (fun _ => none) "photo.JPG" = some "image/jpeg" :=
  ⟨(mime_resolution_in_read_from_file (fun _ => none) "file.bin" none none
      true).1 (Or.inl rfl) (by decide),
   (mime_resolution_in_read_from_file (fun _ => none) "photo.JPG"
      (some "  ")
      (some fun _ =>
        { jumbf := JumbfState.absent,
          reader := Except.ok { activeManifest := none } }) true).2.1
      (Or.inr ⟨"  ", rfl, by decide⟩) "image/jpeg" _ (by decide) rfl,
   (mime_resolution_in_read_from_file (fun _ => none) "photo.JPG" none none
      true).2.2.1 rfl "image/jpeg" (by decide)⟩

end FastC2pa
